import Mathlib

/-!
Verification development for the cloudflare-proxy subdomain provisioning
service.  The definitions below are a shallow embedding of
`app/models.py`, `app/cloudflare_manager.py` and `app/main.py`:

* the SQLAlchemy `Tunnel` model becomes the structure `TunnelRecord`,
  and the database becomes a `List TunnelRecord` whose insert operation
  (`dbInsertTunnel`) enforces the `unique=True` column constraints
  declared on `subdomain` and `tunnel_id`;
* remote Cloudflare API calls are modelled by an outcome environment
  `CFOutcomes` (one `Except` outcome per call site, and an oracle for the
  DNS-record listing query); every executed call is recorded, together
  with its request payload, in a `List RemoteCall` trace so that
  statements such as "no remote mutating call is performed" are
  expressible;
* `get_tunnel_token` (pure `json.dumps` + `base64.b64encode`) is embedded
  bit-for-bit: `escapeChar` mirrors Python's
  `json.encoder.py_encode_basestring_ascii` (default `ensure_ascii=True`)
  and `b64encode` is standard RFC 4648 base64 with padding.
-/

namespace CloudflareProxy

/-- Relevant fields of the `Settings` object (`app/config.py`). -/
structure Config where
  account_id : String
  zone_id : String
  parent_domain : String
  deriving DecidableEq, Repr

/-- One row of the `tunnels` table (`app/models.py`, class `Tunnel`).
`subdomain` and `tunnel_id` are declared `unique=True` in the schema;
that constraint is enforced by `dbInsertTunnel` below, over all rows
regardless of `status`. -/
structure TunnelRecord where
  id : Nat
  subdomain : String
  tunnel_id : String
  tunnel_name : String
  tunnel_secret : String
  dns_record_id : Option String
  public_url : String
  local_port : Int
  description : Option String
  status : String
  deriving DecidableEq, Repr

/-- The query parameters sent by `check_dns_record_exists`. -/
structure DNSQuery where
  qtype : String
  name : String
  deriving DecidableEq, Repr

/-- The request body built by `create_dns_record`. -/
structure DNSRecordData where
  rtype : String
  name : String
  content : String
  ttl : Nat
  proxied : Bool
  comment : String
  deriving DecidableEq, Repr

/-- One ingress rule of the tunnel configuration submitted by
`configure_tunnel_route`.  `hostname` is absent on the catch-all rule;
`noTLSVerify` is the `originRequest.noTLSVerify` field, absent when no
`originRequest` object is sent. -/
structure IngressRule where
  hostname : Option String
  service : String
  noTLSVerify : Option Bool
  deriving DecidableEq, Repr

/-- The `result` of the Cloudflare create-tunnel API call
(fields read by `create_tunnel`). -/
structure CreatedTunnel where
  id : String
  name : String
  created_at : String
  deriving DecidableEq, Repr

/-- A remote Cloudflare API call, recorded with its request payload. -/
inductive RemoteCall where
  | checkDNS (q : DNSQuery)
  | createTunnel (name : String) (secret : String)
  | createDNS (data : DNSRecordData)
  | configureRoute (tunnel_id : String) (ingress : List IngressRule)
  | deleteTunnel (tunnel_id : String)
  | deleteDNS (dns_record_id : String)
  deriving DecidableEq, Repr

/-- A remote call that mutates provider state (everything except the
read-only DNS listing query). -/
def RemoteCall.isMutating : RemoteCall → Bool
  | .checkDNS _ => false
  | _ => true

/-- Outcomes of the remote API calls a single request may perform: the
DNS listing query is an oracle from the query parameters to either an
error or the list of matching record ids; each mutating call site has
one `Except` outcome (`error` models the exception raised by
`_make_request`, carrying its message). -/
structure CFOutcomes where
  dnsQuery : DNSQuery → Except String (List String)
  createTunnel : Except String CreatedTunnel
  createDNS : Except String String
  configureRoute : Except String Unit
  deleteTunnel : Except String Unit
  deleteDNS : Except String Unit

/-- `check_dns_record_exists`: queries CNAME records named
`{subdomain}.{parent_domain}`; returns whether the result list is
non-empty, and `false` if the query raises. -/
def check_dns_record_exists (cfg : Config) (out : CFOutcomes) (subdomain : String) : Bool :=
  match out.dnsQuery ⟨"CNAME", subdomain ++ "." ++ cfg.parent_domain⟩ with
  | .ok records => decide (0 < records.length)
  | .error _ => false

/-- The request body of `create_dns_record`: a proxied CNAME from the
subdomain to `{tunnel_id}.cfargotunnel.com` with automatic TTL (the
sentinel value 1). -/
def create_dns_record_data (subdomain : String) (tunnel_id : String) : DNSRecordData :=
  { rtype := "CNAME"
    name := subdomain
    content := tunnel_id ++ ".cfargotunnel.com"
    ttl := 1
    proxied := true
    comment := "Managed by Cloudflare Proxy Service" }

/-- The ingress list submitted by `configure_tunnel_route`: one rule
routing `hostname` to `http://localhost:{local_port}` with
`noTLSVerify`, then the catch-all `http_status:404` rule. -/
def configure_tunnel_route_ingress (hostname : String) (local_port : Int) : List IngressRule :=
  [ { hostname := some hostname
      service := "http://localhost:" ++ toString local_port
      noTLSVerify := some true }
  , { hostname := none
      service := "http_status:404"
      noTLSVerify := none } ]

/-- Name resolution at the top of `create_full_subdomain_setup`:
`if not subdomain: subdomain = self.generate_subdomain()` (both `None`
and the empty string are falsy in Python).  The randomly generated
candidate is the explicit argument `genName`. -/
def resolve_subdomain (subdomain? : Option String) (genName : String) : String :=
  match subdomain? with
  | none => genName
  | some s => if s = "" then genName else s

/-! ### Tunnel token encoding (`get_tunnel_token`)

`get_tunnel_token` computes
`base64.b64encode(json.dumps({"a": account_id, "t": tunnel_id, "s": tunnel_secret}).encode("utf-8"))`.
`json.dumps` with its defaults uses separators `", "` and `": "`, keeps
insertion order of the keys and escapes via
`py_encode_basestring_ascii` (`ensure_ascii=True`), so the emitted
JSON text is pure ASCII; its UTF-8 encoding is the list of code points.
Bytes are modelled as `Nat` (values below 256). -/

/-- Lowercase hexadecimal digit byte, as produced by Python `"%04x"`. -/
def hexDigit (d : Nat) : Nat :=
  if d < 10 then 0x30 + d else 0x57 + d

/-- The four hex-digit bytes of `"%04x" % n`. -/
def hex4 (n : Nat) : List Nat :=
  [hexDigit (n / 4096 % 16), hexDigit (n / 256 % 16), hexDigit (n / 16 % 16), hexDigit (n % 16)]

/-- Value of one hex digit byte (upper or lower case accepted, as by
`json.loads`). -/
def hexDigitVal (b : Nat) : Option Nat :=
  if 0x30 ≤ b ∧ b ≤ 0x39 then some (b - 0x30)
  else if 0x61 ≤ b ∧ b ≤ 0x66 then some (b - 0x57)
  else if 0x41 ≤ b ∧ b ≤ 0x46 then some (b - 0x37)
  else none

/-- Value of a four-hex-digit escape body. -/
def hex4val (b1 b2 b3 b4 : Nat) : Option Nat :=
  (hexDigitVal b1).bind fun d1 =>
  (hexDigitVal b2).bind fun d2 =>
  (hexDigitVal b3).bind fun d3 =>
  (hexDigitVal b4).map fun d4 => ((d1 * 16 + d2) * 16 + d3) * 16 + d4

/-- JSON escaping of one character, mirroring Python
`json.encoder.py_encode_basestring_ascii`: the short escapes of
`ESCAPE_DCT`, `\uXXXX` for other characters outside `0x20..0x7e`, and a
UTF-16 surrogate pair of escapes for characters beyond `0xffff`. -/
def escapeChar (c : Char) : List Nat :=
  if c.toNat = 0x5c then [0x5c, 0x5c]
  else if c.toNat = 0x22 then [0x5c, 0x22]
  else if c.toNat = 0x08 then [0x5c, 0x62]
  else if c.toNat = 0x0c then [0x5c, 0x66]
  else if c.toNat = 0x0a then [0x5c, 0x6e]
  else if c.toNat = 0x0d then [0x5c, 0x72]
  else if c.toNat = 0x09 then [0x5c, 0x74]
  else if c.toNat < 0x20 then 0x5c :: 0x75 :: hex4 c.toNat
  else if c.toNat ≤ 0x7e then [c.toNat]
  else if c.toNat < 0x10000 then 0x5c :: 0x75 :: hex4 c.toNat
  else (0x5c :: 0x75 :: hex4 (0xd800 + (c.toNat - 0x10000) / 0x400)) ++
       (0x5c :: 0x75 :: hex4 (0xdc00 + (c.toNat - 0x10000) % 0x400))

/-- JSON escaping of a character sequence. -/
def escString (s : List Char) : List Nat :=
  s.flatMap escapeChar

/-- A JSON string literal: quote, escaped body, quote. -/
def jsonStringBytes (s : List Char) : List Nat :=
  0x22 :: escString s ++ [0x22]

/-- The UTF-8 bytes of
`json.dumps({"a": a, "t": t, "s": s})` with Python defaults:
`\x7b"a": <a>, "t": <t>, "s": <s>\x7d`. -/
def tokenJsonBytes (a t s : List Char) : List Nat :=
  [0x7b, 0x22, 0x61, 0x22, 0x3a, 0x20] ++ jsonStringBytes a ++
  [0x2c, 0x20, 0x22, 0x74, 0x22, 0x3a, 0x20] ++ jsonStringBytes t ++
  [0x2c, 0x20, 0x22, 0x73, 0x22, 0x3a, 0x20] ++ jsonStringBytes s ++ [0x7d]

/-! JSON string parsing (the decoding direction of the round trip: what
`json.loads` does on the characters the encoder can emit). -/

/-- Decode one escape sequence (the bytes after a backslash), including
the recombination of a UTF-16 surrogate pair of `\uXXXX` escapes. -/
def unescapeByte : List Nat → Option (Char × List Nat)
  | [] => none
  | b :: bs =>
    if b = 0x22 then some ('"', bs)
    else if b = 0x5c then some ('\\', bs)
    else if b = 0x2f then some ('/', bs)
    else if b = 0x62 then some ('\x08', bs)
    else if b = 0x66 then some ('\x0c', bs)
    else if b = 0x6e then some ('\n', bs)
    else if b = 0x72 then some ('\x0d', bs)
    else if b = 0x74 then some ('\t', bs)
    else if b = 0x75 then
      match bs with
      | h1 :: h2 :: h3 :: h4 :: bs1 =>
        match hex4val h1 h2 h3 h4 with
        | none => none
        | some v =>
          if 0xd800 ≤ v ∧ v ≤ 0xdbff then
            match bs1 with
            | e1 :: e2 :: g1 :: g2 :: g3 :: g4 :: bs2 =>
              if e1 = 0x5c ∧ e2 = 0x75 then
                match hex4val g1 g2 g3 g4 with
                | none => none
                | some w =>
                  if 0xdc00 ≤ w ∧ w ≤ 0xdfff then
                    some (Char.ofNat (0x10000 + (v - 0xd800) * 0x400 + (w - 0xdc00)), bs2)
                  else none
              else none
            | _ => none
          else if 0xdc00 ≤ v ∧ v ≤ 0xdfff then none
          else some (Char.ofNat v, bs1)
      | _ => none
    else none

/-- Parse the body of a JSON string up to its closing quote, returning
the decoded characters and the remaining bytes.  `fuel` bounds the
number of characters (each character consumes at least one byte, so any
fuel above the input length is enough). -/
def parseStrF : Nat → List Nat → Option (List Char × List Nat)
  | _, [] => none
  | 0, _ :: _ => none
  | fuel + 1, b :: bs =>
    if b = 0x22 then some ([], bs)
    else if b = 0x5c then
      match unescapeByte bs with
      | none => none
      | some (c, bs1) =>
        match parseStrF fuel bs1 with
        | none => none
        | some (s, rest) => some (c :: s, rest)
    else if 0x20 ≤ b ∧ b ≤ 0x7e then
      match parseStrF fuel bs with
      | none => none
      | some (s, rest) => some (Char.ofNat b :: s, rest)
    else none

/-- Consume an expected literal byte sequence. -/
def expectBytes : List Nat → List Nat → Option (List Nat)
  | [], bs => some bs
  | _ :: _, [] => none
  | e :: es, b :: bs => if b = e then expectBytes es bs else none

/-- Parse the JSON object `\x7b"a": "...", "t": "...", "s": "..."\x7d`,
recovering the three field values. -/
def parseTokenBytes (bs : List Nat) : Option (List Char × List Char × List Char) :=
  match expectBytes [0x7b, 0x22, 0x61, 0x22, 0x3a, 0x20, 0x22] bs with
  | none => none
  | some bs1 =>
    match parseStrF (bs1.length + 1) bs1 with
    | none => none
    | some (a, bs2) =>
      match expectBytes [0x2c, 0x20, 0x22, 0x74, 0x22, 0x3a, 0x20, 0x22] bs2 with
      | none => none
      | some bs3 =>
        match parseStrF (bs3.length + 1) bs3 with
        | none => none
        | some (t, bs4) =>
          match expectBytes [0x2c, 0x20, 0x22, 0x73, 0x22, 0x3a, 0x20, 0x22] bs4 with
          | none => none
          | some bs5 =>
            match parseStrF (bs5.length + 1) bs5 with
            | none => none
            | some (s, bs6) =>
              if bs6 = [0x7d] then some (a, t, s) else none

/-! Standard base64 (RFC 4648, the alphabet used by Python
`base64.b64encode`, with `=` padding). -/

/-- The standard (non-URL-safe) base64 alphabet. -/
def b64alphabet : List Char :=
  "ABCDEFGHIJKLMNOPQRSTUVWXYZabcdefghijklmnopqrstuvwxyz0123456789+/".toList

/-- Character for a six-bit group. -/
def alpha (n : Nat) : Char :=
  b64alphabet.getD n 'A'

/-- Index of a character in a list. -/
def charIndex : List Char → Char → Option Nat
  | [], _ => none
  | a :: as, c => if a = c then some 0 else (charIndex as c).map (· + 1)

/-- Inverse of the base64 alphabet. -/
def alphaInv (c : Char) : Option Nat :=
  charIndex b64alphabet c

/-- Standard base64 encoding with padding of a byte list. -/
def b64encode : List Nat → List Char
  | [] => []
  | [b1] => [alpha (b1 / 4), alpha (b1 % 4 * 16), '=', '=']
  | [b1, b2] => [alpha (b1 / 4), alpha (b1 % 4 * 16 + b2 / 16), alpha (b2 % 16 * 4), '=']
  | b1 :: b2 :: b3 :: rest =>
    alpha (b1 / 4) :: alpha (b1 % 4 * 16 + b2 / 16) ::
    alpha (b2 % 16 * 4 + b3 / 64) :: alpha (b3 % 64) :: b64encode rest

/-- Standard base64 decoding with padding. -/
def b64decode : List Char → Option (List Nat)
  | [] => some []
  | c1 :: c2 :: c3 :: c4 :: rest =>
    match alphaInv c1, alphaInv c2 with
    | some v1, some v2 =>
      if c3 = '=' then
        if c4 = '=' ∧ rest = [] then some [v1 * 4 + v2 / 16] else none
      else
        match alphaInv c3 with
        | some v3 =>
          if c4 = '=' then
            if rest = [] then some [v1 * 4 + v2 / 16, v2 % 16 * 16 + v3 / 4] else none
          else
            match alphaInv c4 with
            | some v4 =>
              match b64decode rest with
              | some bs => some ((v1 * 4 + v2 / 16) :: (v2 % 16 * 16 + v3 / 4) :: (v3 % 4 * 64 + v4) :: bs)
              | none => none
            | none => none
        | none => none
    | _, _ => none
  | _ => none

/-- Prepend a decoded character to the result of parsing the rest of a
string body (the shape of one `parseStrF` step). -/
def consChar (c : Char) : Option (List Char × List Nat) → Option (List Char × List Nat)
  | none => none
  | some (s, rest) => some (c :: s, rest)

/-- `get_tunnel_token`: the base64 encoding of the UTF-8 bytes of the
JSON object with keys `a` (account id), `t` (tunnel id), `s` (secret). -/
def get_tunnel_token (account_id tunnel_id tunnel_secret : String) : String :=
  String.mk (b64encode (tokenJsonBytes account_id.toList tunnel_id.toList tunnel_secret.toList))

/-- The decoding a token consumer performs: standard base64 decode,
then JSON parse of the resulting bytes. -/
def decode_tunnel_token (tok : String) : Option (String × String × String) :=
  match b64decode tok.toList with
  | none => none
  | some bs =>
    match parseTokenBytes bs with
    | none => none
    | some (a, t, s) => some (String.mk a, String.mk t, String.mk s)

/-! ### The create saga (`create_full_subdomain_setup`) and the API
endpoints of `app/main.py`. -/

/-- The dictionary returned by a successful
`create_full_subdomain_setup`. -/
structure SetupResult where
  subdomain : String
  tunnel_id : String
  tunnel_name : String
  tunnel_secret : String
  dns_record_id : String
  public_url : String
  local_port : Int
  tunnel_token : String
  created_at : String
  deriving DecidableEq, Repr

/-- `create_full_subdomain_setup`: resolve the name, abort if a DNS
record already exists, create the tunnel, then (DNS record, route
configuration, token) with a compensating `delete_tunnel` — attempted
regardless of its own outcome, its failure swallowed — when a step after
tunnel creation fails; the original error is re-raised.  `genName` and
`genSecret` stand for the randomly generated subdomain candidate and
tunnel secret.  Returns the result (or the raised error message) and
the trace of remote calls attempted. -/
def create_full_subdomain_setup (cfg : Config) (out : CFOutcomes)
    (genName genSecret : String) (subdomain? : Option String) (local_port : Int) :
    Except String SetupResult × List RemoteCall :=
  let subdomain := resolve_subdomain subdomain? genName
  let q : DNSQuery := ⟨"CNAME", subdomain ++ "." ++ cfg.parent_domain⟩
  if check_dns_record_exists cfg out subdomain then
    (.error ("Subdomain " ++ subdomain ++ " is already taken"), [.checkDNS q])
  else
    match out.createTunnel with
    | .error e => (.error e, [.checkDNS q, .createTunnel subdomain genSecret])
    | .ok tun =>
      let tunnel_id := tun.id
      let full_hostname := subdomain ++ "." ++ cfg.parent_domain
      let dnsData := create_dns_record_data subdomain tunnel_id
      match out.createDNS with
      | .error e =>
        (.error e, [.checkDNS q, .createTunnel subdomain genSecret, .createDNS dnsData,
                    .deleteTunnel tunnel_id])
      | .ok dns_record_id =>
        let ingress := configure_tunnel_route_ingress full_hostname local_port
        match out.configureRoute with
        | .error e =>
          (.error e, [.checkDNS q, .createTunnel subdomain genSecret, .createDNS dnsData,
                      .configureRoute tunnel_id ingress, .deleteTunnel tunnel_id])
        | .ok _ =>
          (.ok { subdomain := subdomain
                 tunnel_id := tunnel_id
                 tunnel_name := tun.name
                 tunnel_secret := genSecret
                 dns_record_id := dns_record_id
                 public_url := "https://" ++ full_hostname
                 local_port := local_port
                 tunnel_token := get_tunnel_token cfg.account_id tunnel_id genSecret
                 created_at := tun.created_at },
           [.checkDNS q, .createTunnel subdomain genSecret, .createDNS dnsData,
            .configureRoute tunnel_id ingress])

/-- `cleanup_subdomain`: best-effort deletion of the DNS record (when an
id is known) and then of the tunnel; each failure is swallowed and turns
the returned success flag to `false`.  Returns the flag and the calls
attempted. -/
def cleanup_subdomain (out : CFOutcomes) (tunnel_id : String)
    (dns_record_id : Option String) : Bool × List RemoteCall :=
  let dnsStep : Bool × List RemoteCall :=
    match dns_record_id with
    | none => (true, [])
    | some rid =>
      match out.deleteDNS with
      | .ok _ => (true, [.deleteDNS rid])
      | .error _ => (false, [.deleteDNS rid])
  let tunStep : Bool × List RemoteCall :=
    match out.deleteTunnel with
    | .ok _ => (true, [.deleteTunnel tunnel_id])
    | .error _ => (false, [.deleteTunnel tunnel_id])
  (dnsStep.1 && tunStep.1, dnsStep.2 ++ tunStep.2)

/-- The `tunnels` table: does some row (of any status) hold this
subdomain? -/
def dbHasSubdomain (db : List TunnelRecord) (s : String) : Bool :=
  db.any (fun r => r.subdomain == s)

/-- Does some row (of any status) hold this tunnel id? -/
def dbHasTunnelId (db : List TunnelRecord) (tid : String) : Bool :=
  db.any (fun r => r.tunnel_id == tid)

/-- Insert into the `tunnels` table.  The `unique=True` constraints on
`subdomain` and `tunnel_id` apply to every row regardless of `status`;
a violation raises `IntegrityError` at commit time, modelled as an
`error`. -/
def dbInsertTunnel (db : List TunnelRecord) (r : TunnelRecord) :
    Except String (List TunnelRecord) :=
  if dbHasSubdomain db r.subdomain then
    .error "UNIQUE constraint failed: tunnels.subdomain"
  else if dbHasTunnelId db r.tunnel_id then
    .error "UNIQUE constraint failed: tunnels.tunnel_id"
  else
    .ok (db ++ [r])

/-- The query of `create_subdomain`, `check_subdomain` and
`delete_subdomain`: first row with this subdomain and status
`active`. -/
def find_active (db : List TunnelRecord) (s : String) : Option TunnelRecord :=
  db.find? (fun r => r.subdomain == s && r.status == "active")

/-- Does the ledger hold an active row for this subdomain? -/
def ledger_has_active (db : List TunnelRecord) (s : String) : Bool :=
  (find_active db s).isSome

/-- `tunnel.status = "deleted"` on the row the delete endpoint fetched:
the first active row for the subdomain. -/
def mark_deleted_first : List TunnelRecord → String → List TunnelRecord
  | [], _ => []
  | r :: rs, s =>
    if r.subdomain == s && r.status == "active" then
      { r with status := "deleted" } :: rs
    else
      r :: mark_deleted_first rs s

/-- The request body of `POST /api/subdomain/create`
(`CreateSubdomainRequest`); pydantic validates
`localPort` with `ge=1, le=65535` before the handler runs. -/
structure CreateSubdomainRequest where
  subdomain : Option String
  localPort : Int
  description : Option String
  deriving DecidableEq, Repr

/-- Outcome of the create endpoint: the 200 response body, or an HTTP
error status with its `detail` string. -/
inductive CreateResult where
  | ok (subdomain : String) (publicUrl : String) (tunnelId : String) (tunnelToken : String)
  | httpError (status : Nat) (detail : String)
  deriving DecidableEq, Repr

/-- Body of `create_subdomain` after the duplicate precheck: run the
saga; on failure roll back (HTTP 500 carrying the original message);
on success build the `Tunnel` row and commit it, a constraint violation
at commit being caught by the same generic handler (HTTP 500). -/
def create_subdomain_core (cfg : Config) (out : CFOutcomes) (db : List TunnelRecord)
    (genName genSecret : String) (req : CreateSubdomainRequest) :
    CreateResult × List TunnelRecord × List RemoteCall :=
  match create_full_subdomain_setup cfg out genName genSecret req.subdomain req.localPort with
  | (.error e, calls) =>
    (.httpError 500 ("Failed to create subdomain: " ++ e), db, calls)
  | (.ok r, calls) =>
    let row : TunnelRecord :=
      { id := db.length + 1
        subdomain := r.subdomain
        tunnel_id := r.tunnel_id
        tunnel_name := r.tunnel_name
        tunnel_secret := r.tunnel_secret
        dns_record_id := some r.dns_record_id
        public_url := r.public_url
        local_port := req.localPort
        description := req.description
        status := "active" }
    match dbInsertTunnel db row with
    | .error e => (.httpError 500 ("Failed to create subdomain: " ++ e), db, calls)
    | .ok db2 => (.ok r.subdomain r.public_url r.tunnel_id r.tunnel_token, db2, calls)

/-- `POST /api/subdomain/create` (after request validation): when a
subdomain was supplied (and non-empty, Python truthiness), a row with
that subdomain and status `active` yields HTTP 409 before any remote
call; otherwise the saga runs. -/
def create_subdomain (cfg : Config) (out : CFOutcomes) (db : List TunnelRecord)
    (genName genSecret : String) (req : CreateSubdomainRequest) :
    CreateResult × List TunnelRecord × List RemoteCall :=
  match req.subdomain with
  | some s =>
    if s ≠ "" ∧ ledger_has_active db s then
      (.httpError 409 ("Subdomain " ++ s ++ " is already taken"), db, [])
    else
      create_subdomain_core cfg out db genName genSecret req
  | none => create_subdomain_core cfg out db genName genSecret req

/-- Whether the request body passes pydantic validation
(`localPort` constrained by `ge=1, le=65535`). -/
def validate_create_request (req : CreateSubdomainRequest) : Bool :=
  1 ≤ req.localPort && req.localPort ≤ 65535

/-- The full request pipeline: FastAPI rejects an invalid body with
HTTP 422 before the handler (and hence before any remote call or
database access) runs. -/
def api_create_subdomain (cfg : Config) (out : CFOutcomes) (db : List TunnelRecord)
    (genName genSecret : String) (req : CreateSubdomainRequest) :
    CreateResult × List TunnelRecord × List RemoteCall :=
  if validate_create_request req then
    create_subdomain cfg out db genName genSecret req
  else
    (.httpError 422 "value_error: localPort out of range", db, [])

/-- Outcome of the delete endpoint. -/
inductive DeleteResult where
  | ok (success : Bool) (message : String)
  | httpError (status : Nat) (detail : String)
  deriving DecidableEq, Repr

/-- `DELETE /api/subdomain/\x7bsubdomain\x7d`: find the active row (404 when
absent), run `cleanup_subdomain` discarding its success flag, then
unconditionally soft-delete the row and report success. -/
def delete_subdomain (out : CFOutcomes) (db : List TunnelRecord) (subdomain : String) :
    DeleteResult × List TunnelRecord × List RemoteCall :=
  match find_active db subdomain with
  | none =>
    (.httpError 404 ("Subdomain " ++ subdomain ++ " not found"), db, [])
  | some t =>
    let cleanup := cleanup_subdomain out t.tunnel_id t.dns_record_id
    (.ok true ("Subdomain " ++ subdomain ++ " deleted successfully"),
     mark_deleted_first db subdomain, cleanup.2)

/-- `GET /api/subdomain/\x7bsubdomain\x7d`: first row with this subdomain,
with no filter on `status`; `none` models the 404 response. -/
def get_subdomain_details (db : List TunnelRecord) (subdomain : String) :
    Option TunnelRecord :=
  db.find? (fun r => r.subdomain == subdomain)

/-! ### Concrete fixtures for witness executions -/

/-- A configuration fixture. -/
def cfgDemo : Config :=
  { account_id := "acct1", zone_id := "zone1", parent_domain := "agentstudio.cc" }

/-- Outcomes in which every remote call succeeds and no DNS record
exists for any name. -/
def outAllOk : CFOutcomes :=
  { dnsQuery := fun _ => .ok []
    createTunnel := .ok { id := "tun-new", name := "demo", created_at := "2024-01-01T00:00:00Z" }
    createDNS := .ok "dns-new"
    configureRoute := .ok ()
    deleteTunnel := .ok ()
    deleteDNS := .ok () }

/-- Outcomes in which the DNS listing reports one live record for every
query and everything else succeeds. -/
def outDnsLive : CFOutcomes :=
  { outAllOk with dnsQuery := fun _ => .ok ["rec-1"] }

/-- Outcomes in which the DNS listing query itself fails. -/
def outQueryFails : CFOutcomes :=
  { outAllOk with dnsQuery := fun _ => .error "HTTP Request failed: boom" }

/-- Outcomes in which DNS-record creation fails and the compensating
tunnel deletion also fails. -/
def outDnsFailDeleteFail : CFOutcomes :=
  { outAllOk with
      createDNS := .error "Cloudflare API Error: dns failure"
      deleteTunnel := .error "Cloudflare API Error: cannot delete"
      deleteDNS := .error "Cloudflare API Error: cannot delete" }

/-- Outcomes in which route configuration fails. -/
def outRouteFail : CFOutcomes :=
  { outAllOk with configureRoute := .error "Cloudflare API Error: route failure" }

/-- Outcomes in which both remote deletions fail. -/
def outDeleteFail : CFOutcomes :=
  { outAllOk with
      deleteTunnel := .error "Cloudflare API Error: tunnel delete failed"
      deleteDNS := .error "Cloudflare API Error: dns delete failed" }

/-- An active ledger row for `demo`. -/
def rowDemoActive : TunnelRecord :=
  { id := 1, subdomain := "demo", tunnel_id := "tun-0", tunnel_name := "demo",
    tunnel_secret := "sec-0", dns_record_id := some "dns-0",
    public_url := "https://demo.agentstudio.cc", local_port := 8080,
    description := none, status := "active" }

/-- The same row soft-deleted. -/
def rowDemoDeleted : TunnelRecord :=
  { rowDemoActive with status := "deleted" }

/-- A create request for subdomain `demo` on port 8080. -/
def reqDemo : CreateSubdomainRequest :=
  { subdomain := some "demo", localPort := 8080, description := none }

/-- A create request with an out-of-range port. -/
def reqBadPort : CreateSubdomainRequest :=
  { subdomain := some "demo", localPort := 99999, description := none }

/-! ### Lemmas: hex digits, JSON escaping and base64 -/

theorem hexDigitVal_hexDigit : ∀ d, d < 16 → hexDigitVal (hexDigit d) = some d := by
  decide

theorem hexDigit_lt (m : Nat) (h : m < 16) : hexDigit m < 256 := by
  unfold hexDigit; split <;> omega

theorem hex4_lt (n b : Nat) (hb : b ∈ hex4 n) : b < 256 := by
  simp only [hex4, List.mem_cons, List.not_mem_nil, or_false] at hb
  rcases hb with rfl | rfl | rfl | rfl <;> exact hexDigit_lt _ (by omega)

theorem hex4val_hex4 (n : Nat) (h : n < 0x10000) :
    hex4val (hexDigit (n / 4096 % 16)) (hexDigit (n / 256 % 16))
      (hexDigit (n / 16 % 16)) (hexDigit (n % 16)) = some n := by
  have h1 := hexDigitVal_hexDigit (n / 4096 % 16) (by omega)
  have h2 := hexDigitVal_hexDigit (n / 256 % 16) (by omega)
  have h3 := hexDigitVal_hexDigit (n / 16 % 16) (by omega)
  have h4 := hexDigitVal_hexDigit (n % 16) (by omega)
  simp [hex4val, h1, h2, h3, h4]
  omega

theorem escapeChar_lt (c : Char) (b : Nat) (hb : b ∈ escapeChar c) : b < 256 := by
  unfold escapeChar at hb
  repeat' split at hb
  all_goals
    simp only [List.cons_append, List.mem_cons, List.mem_append, List.not_mem_nil,
      or_false] at hb
  all_goals try casesm* _ ∨ _
  all_goals
    first
      | omega
      | exact hex4_lt _ _ (by assumption)

theorem escString_lt (s : List Char) (b : Nat) (hb : b ∈ escString s) : b < 256 := by
  simp only [escString, List.mem_flatMap] at hb
  rcases hb with ⟨c, _, hc⟩
  exact escapeChar_lt c b hc

theorem parseStrF_backslash (fuel : Nat) (bs : List Nat) :
    parseStrF (fuel + 1) (0x5c :: bs) =
      match unescapeByte bs with
      | none => none
      | some (c, bs1) => consChar c (parseStrF fuel bs1) := by
  rcases hu : unescapeByte bs with _ | ⟨c, bs1⟩
  · simp [parseStrF, hu]
  · rcases hp : parseStrF fuel bs1 with _ | ⟨s, rest⟩ <;>
      simp [parseStrF, hu, hp, consChar]

theorem unescapeByte_surrogatePair (hi lo : Nat) (r : List Nat)
    (hhi16 : hi < 0x10000) (hlo16 : lo < 0x10000)
    (hhiA : 0xd800 ≤ hi ∧ hi ≤ 0xdbff) (hloA : 0xdc00 ≤ lo ∧ lo ≤ 0xdfff) :
    unescapeByte (0x75 :: (hex4 hi ++ (0x5c :: 0x75 :: (hex4 lo ++ r)))) =
      some (Char.ofNat (0x10000 + (hi - 0xd800) * 0x400 + (lo - 0xdc00)), r) := by
  simp [unescapeByte, hex4, hex4val_hex4 hi hhi16, hex4val_hex4 lo hlo16, hhiA, hloA]

theorem parseStrF_escapeChar (c : Char) (fuel : Nat) (r : List Nat) :
    parseStrF (fuel + 1) (escapeChar c ++ r) = consChar c (parseStrF fuel r) := by
  have hv : c.toNat < 0xd800 ∨ 0xdfff < c.toNat ∧ c.toNat < 0x110000 := c.valid
  have hofn : Char.ofNat c.toNat = c := Char.ofNat_toNat c
  by_cases h5c : c.toNat = 0x5c
  · have hc : c = '\\' := by rw [← hofn, h5c]
    subst hc
    rcases hp : parseStrF fuel r with _ | ⟨s, rest⟩ <;>
      simp [escapeChar, parseStrF, unescapeByte, consChar, hp]
  by_cases h22 : c.toNat = 0x22
  · have hc : c = '"' := by rw [← hofn, h22]
    subst hc
    rcases hp : parseStrF fuel r with _ | ⟨s, rest⟩ <;>
      simp [escapeChar, parseStrF, unescapeByte, consChar, hp]
  by_cases h08 : c.toNat = 0x08
  · have hc : c = '\x08' := by rw [← hofn, h08]
    subst hc
    rcases hp : parseStrF fuel r with _ | ⟨s, rest⟩ <;>
      simp [escapeChar, parseStrF, unescapeByte, consChar, hp]
  by_cases h0c : c.toNat = 0x0c
  · have hc : c = '\x0c' := by rw [← hofn, h0c]
    subst hc
    rcases hp : parseStrF fuel r with _ | ⟨s, rest⟩ <;>
      simp [escapeChar, parseStrF, unescapeByte, consChar, hp]
  by_cases h0a : c.toNat = 0x0a
  · have hc : c = '\n' := by rw [← hofn, h0a]
    subst hc
    rcases hp : parseStrF fuel r with _ | ⟨s, rest⟩ <;>
      simp [escapeChar, parseStrF, unescapeByte, consChar, hp]
  by_cases h0d : c.toNat = 0x0d
  · have hc : c = '\x0d' := by rw [← hofn, h0d]
    subst hc
    rcases hp : parseStrF fuel r with _ | ⟨s, rest⟩ <;>
      simp [escapeChar, parseStrF, unescapeByte, consChar, hp]
  by_cases h09 : c.toNat = 0x09
  · have hc : c = '\t' := by rw [← hofn, h09]
    subst hc
    rcases hp : parseStrF fuel r with _ | ⟨s, rest⟩ <;>
      simp [escapeChar, parseStrF, unescapeByte, consChar, hp]
  by_cases h20 : c.toNat < 0x20
  · have hesc : escapeChar c = 0x5c :: 0x75 :: hex4 c.toNat := by
      unfold escapeChar
      rw [if_neg h5c, if_neg h22, if_neg h08, if_neg h0c, if_neg h0a, if_neg h0d,
          if_neg h09, if_pos h20]
    have hA : ¬(0xd800 ≤ c.toNat ∧ c.toNat ≤ 0xdbff) := by omega
    have hB : ¬(0xdc00 ≤ c.toNat ∧ c.toNat ≤ 0xdfff) := by omega
    rcases hp : parseStrF fuel r with _ | ⟨s, rest⟩ <;>
      simp [hesc, hex4, parseStrF, unescapeByte, hex4val_hex4 c.toNat (by omega),
        hA, hB, hofn, consChar, hp]
  by_cases h7e : c.toNat ≤ 0x7e
  · have hesc : escapeChar c = [c.toNat] := by
      unfold escapeChar
      rw [if_neg h5c, if_neg h22, if_neg h08, if_neg h0c, if_neg h0a, if_neg h0d,
          if_neg h09, if_neg h20, if_pos h7e]
    have hpos : 0x20 ≤ c.toNat ∧ c.toNat ≤ 0x7e := ⟨by omega, h7e⟩
    rcases hp : parseStrF fuel r with _ | ⟨s, rest⟩ <;>
      simp [hesc, parseStrF, h5c, h22, hpos, hofn, consChar, hp]
  by_cases h16 : c.toNat < 0x10000
  · have hesc : escapeChar c = 0x5c :: 0x75 :: hex4 c.toNat := by
      unfold escapeChar
      rw [if_neg h5c, if_neg h22, if_neg h08, if_neg h0c, if_neg h0a, if_neg h0d,
          if_neg h09, if_neg h20, if_neg h7e, if_pos h16]
    have hA : ¬(0xd800 ≤ c.toNat ∧ c.toNat ≤ 0xdbff) := by omega
    have hB : ¬(0xdc00 ≤ c.toNat ∧ c.toNat ≤ 0xdfff) := by omega
    rcases hp : parseStrF fuel r with _ | ⟨s, rest⟩ <;>
      simp [hesc, hex4, parseStrF, unescapeByte, hex4val_hex4 c.toNat (by omega),
        hA, hB, hofn, consChar, hp]
  · have hesc : escapeChar c =
        (0x5c :: 0x75 :: hex4 (0xd800 + (c.toNat - 0x10000) / 0x400)) ++
        (0x5c :: 0x75 :: hex4 (0xdc00 + (c.toNat - 0x10000) % 0x400)) := by
      unfold escapeChar
      rw [if_neg h5c, if_neg h22, if_neg h08, if_neg h0c, if_neg h0a, if_neg h0d,
          if_neg h09, if_neg h20, if_neg h7e, if_neg h16]
    have hup : c.toNat < 0x110000 := by omega
    have hhi16 : 0xd800 + (c.toNat - 0x10000) / 0x400 < 0x10000 := by omega
    have hlo16 : 0xdc00 + (c.toNat - 0x10000) % 0x400 < 0x10000 := by omega
    have hhiA : 0xd800 ≤ 0xd800 + (c.toNat - 0x10000) / 0x400 ∧
        0xd800 + (c.toNat - 0x10000) / 0x400 ≤ 0xdbff := by omega
    have hloA : 0xdc00 ≤ 0xdc00 + (c.toNat - 0x10000) % 0x400 ∧
        0xdc00 + (c.toNat - 0x10000) % 0x400 ≤ 0xdfff := by omega
    have hcn : 0x10000 + (0xd800 + (c.toNat - 0x10000) / 0x400 - 0xd800) * 0x400 +
        (0xdc00 + (c.toNat - 0x10000) % 0x400 - 0xdc00) = c.toNat := by omega
    have hlist : escapeChar c ++ r =
        0x5c :: (0x75 :: (hex4 (0xd800 + (c.toNat - 0x10000) / 0x400) ++
          (0x5c :: 0x75 :: (hex4 (0xdc00 + (c.toNat - 0x10000) % 0x400) ++ r)))) := by
      rw [hesc]; simp [List.append_assoc]
    rw [hlist, parseStrF_backslash,
        unescapeByte_surrogatePair _ _ _ hhi16 hlo16 hhiA hloA, hcn, hofn]

theorem escapeChar_length_pos (c : Char) : 1 ≤ (escapeChar c).length := by
  unfold escapeChar
  repeat' split
  all_goals simp [hex4]

theorem escString_length (s : List Char) : s.length ≤ (escString s).length := by
  induction s with
  | nil => simp [escString]
  | cons c cs ih =>
    have h1 := escapeChar_length_pos c
    simp only [escString, List.flatMap_cons, List.length_append, List.length_cons]
    simp only [escString] at ih
    omega

theorem parseStrF_escString (s : List Char) (r : List Nat) :
    ∀ fuel, s.length < fuel → parseStrF fuel (escString s ++ (0x22 :: r)) = some (s, r) := by
  induction s with
  | nil =>
    intro fuel h
    obtain ⟨f, rfl⟩ : ∃ f, fuel = f + 1 := ⟨fuel - 1, by omega⟩
    simp [escString, parseStrF]
  | cons c cs ih =>
    intro fuel h
    obtain ⟨f, rfl⟩ : ∃ f, fuel = f + 1 := ⟨fuel - 1, by omega⟩
    have hsplit : escString (c :: cs) ++ (0x22 :: r) =
        escapeChar c ++ (escString cs ++ (0x22 :: r)) := by
      simp [escString, List.append_assoc]
    rw [hsplit, parseStrF_escapeChar, ih f (by simpa using Nat.lt_of_succ_lt_succ h)]
    rfl

theorem expectBytes_append (es bs : List Nat) : expectBytes es (es ++ bs) = some bs := by
  induction es with
  | nil => rfl
  | cons e es ih => simp [expectBytes, ih]

theorem parseTokenBytes_round (a t s : List Char) :
    parseTokenBytes (tokenJsonBytes a t s) = some (a, t, s) := by
  have hsh : tokenJsonBytes a t s =
      [0x7b, 0x22, 0x61, 0x22, 0x3a, 0x20, 0x22] ++
      (escString a ++ (0x22 ::
        ([0x2c, 0x20, 0x22, 0x74, 0x22, 0x3a, 0x20, 0x22] ++
          (escString t ++ (0x22 ::
            ([0x2c, 0x20, 0x22, 0x73, 0x22, 0x3a, 0x20, 0x22] ++
              (escString s ++ (0x22 :: [0x7d])))))))) := by
    simp [tokenJsonBytes, jsonStringBytes, List.append_assoc]
  have hlen : ∀ (x : List Char) (r : List Nat),
      parseStrF ((escString x ++ (0x22 :: r)).length + 1) (escString x ++ (0x22 :: r)) =
        some (x, r) := by
    intro x r
    apply parseStrF_escString
    have := escString_length x
    simp only [List.length_append, List.length_cons]
    omega
  rw [hsh]
  simp only [parseTokenBytes, expectBytes_append, hlen]
  simp

theorem tokenJsonBytes_lt (a t s : List Char) : ∀ b ∈ tokenJsonBytes a t s, b < 256 := by
  intro b hb
  simp only [tokenJsonBytes, jsonStringBytes, List.append_assoc, List.cons_append,
    List.nil_append, List.mem_append, List.mem_cons, List.not_mem_nil, or_false] at hb
  try casesm* _ ∨ _
  all_goals first | omega | exact escString_lt _ _ (by assumption)

theorem alphaInv_alpha : ∀ n, n < 64 → alphaInv (alpha n) = some n := by decide

theorem alpha_ne_pad : ∀ n, n < 64 → alpha n ≠ '=' := by decide

theorem alpha_mem : ∀ n, n < 64 → alpha n ∈ b64alphabet := by decide

theorem b64decode_b64encode : ∀ bs : List Nat, (∀ b ∈ bs, b < 256) →
    b64decode (b64encode bs) = some bs
  | [], _ => rfl
  | [b1], h => by
    have hb1 : b1 < 256 := h b1 (by simp)
    have e1 := alphaInv_alpha (b1 / 4) (by omega)
    have e2 := alphaInv_alpha (b1 % 4 * 16) (by omega)
    simp only [b64encode, b64decode]
    simp [e1, e2]
    omega
  | [b1, b2], h => by
    have hb1 : b1 < 256 := h b1 (by simp)
    have hb2 : b2 < 256 := h b2 (by simp)
    have e1 := alphaInv_alpha (b1 / 4) (by omega)
    have e2 := alphaInv_alpha (b1 % 4 * 16 + b2 / 16) (by omega)
    have e3 := alphaInv_alpha (b2 % 16 * 4) (by omega)
    have ne3 := alpha_ne_pad (b2 % 16 * 4) (by omega)
    simp only [b64encode, b64decode]
    simp [e1, e2, e3, ne3]
    omega
  | b1 :: b2 :: b3 :: rest, h => by
    have hb1 : b1 < 256 := h b1 (by simp)
    have hb2 : b2 < 256 := h b2 (by simp)
    have hb3 : b3 < 256 := h b3 (by simp)
    have ih := b64decode_b64encode rest (fun b hb => h b (by simp [hb]))
    have e1 := alphaInv_alpha (b1 / 4) (by omega)
    have e2 := alphaInv_alpha (b1 % 4 * 16 + b2 / 16) (by omega)
    have e3 := alphaInv_alpha (b2 % 16 * 4 + b3 / 64) (by omega)
    have e4 := alphaInv_alpha (b3 % 64) (by omega)
    have ne3 := alpha_ne_pad (b2 % 16 * 4 + b3 / 64) (by omega)
    have ne4 := alpha_ne_pad (b3 % 64) (by omega)
    simp only [b64encode, b64decode]
    simp [e1, e2, e3, e4, ne3, ne4, ih]
    omega

theorem b64encode_length : ∀ bs : List Nat, (b64encode bs).length % 4 = 0
  | [] => rfl
  | [_] => by simp [b64encode]
  | [_, _] => by simp [b64encode]
  | b1 :: b2 :: b3 :: rest => by
    have ih := b64encode_length rest
    simp only [b64encode, List.length_cons]
    omega

theorem b64encode_mem : ∀ bs : List Nat, (∀ b ∈ bs, b < 256) →
    ∀ c ∈ b64encode bs, c ∈ b64alphabet ∨ c = '='
  | [], _, c, hc => by simp [b64encode] at hc
  | [b1], h, c, hc => by
    have hb1 : b1 < 256 := h b1 (by simp)
    simp only [b64encode, List.mem_cons, List.not_mem_nil, or_false] at hc
    rcases hc with rfl | rfl | rfl | rfl
    · exact .inl (alpha_mem _ (by omega))
    · exact .inl (alpha_mem _ (by omega))
    · exact .inr rfl
    · exact .inr rfl
  | [b1, b2], h, c, hc => by
    have hb1 : b1 < 256 := h b1 (by simp)
    have hb2 : b2 < 256 := h b2 (by simp)
    simp only [b64encode, List.mem_cons, List.not_mem_nil, or_false] at hc
    rcases hc with rfl | rfl | rfl | rfl
    · exact .inl (alpha_mem _ (by omega))
    · exact .inl (alpha_mem _ (by omega))
    · exact .inl (alpha_mem _ (by omega))
    · exact .inr rfl
  | b1 :: b2 :: b3 :: rest, h, c, hc => by
    have hb1 : b1 < 256 := h b1 (by simp)
    have hb2 : b2 < 256 := h b2 (by simp)
    have hb3 : b3 < 256 := h b3 (by simp)
    simp only [b64encode, List.mem_cons] at hc
    rcases hc with rfl | rfl | rfl | rfl | hc
    · exact .inl (alpha_mem _ (by omega))
    · exact .inl (alpha_mem _ (by omega))
    · exact .inl (alpha_mem _ (by omega))
    · exact .inl (alpha_mem _ (by omega))
    · exact b64encode_mem rest (fun b hb => h b (by simp [hb])) c hc

/-! ### C5: the tunnel token round trip -/

/-- C5: for every accountId, tunnelId and secret, decoding the output of
`get_tunnel_token` — standard base64 decode, then JSON parse of the
UTF-8 bytes — recovers exactly the object with `a` = accountId,
`t` = tunnelId, `s` = secret; the encoding is a deterministic function
whose output uses only the standard (non-URL-safe) base64 alphabet plus
`=` padding, with the padded length a multiple of four. -/
theorem tunnel_token_roundtrip (account_id tunnel_id secret : String) :
    decode_tunnel_token (get_tunnel_token account_id tunnel_id secret) =
      some (account_id, tunnel_id, secret) ∧
    (get_tunnel_token account_id tunnel_id secret).length % 4 = 0 ∧
    (∀ c ∈ (get_tunnel_token account_id tunnel_id secret).toList,
      c ∈ b64alphabet ∨ c = '=') := by
  refine ⟨?_, ?_, ?_⟩
  · have hdec := b64decode_b64encode
      (tokenJsonBytes account_id.toList tunnel_id.toList secret.toList)
      (tokenJsonBytes_lt _ _ _)
    have hpar := parseTokenBytes_round account_id.toList tunnel_id.toList secret.toList
    simp only [decode_tunnel_token, get_tunnel_token]
    rw [show (String.mk (b64encode (tokenJsonBytes account_id.toList tunnel_id.toList
        secret.toList))).toList = b64encode (tokenJsonBytes account_id.toList
        tunnel_id.toList secret.toList) from rfl, hdec]
    simp only [hpar]
    rfl
  · exact b64encode_length (tokenJsonBytes account_id.toList tunnel_id.toList secret.toList)
  · exact b64encode_mem _ (tokenJsonBytes_lt _ _ _)

/-! ### C8, C9, C10: lookup, validation, existence check -/

/-- C8: `check_dns_record_exists` queries the provider for CNAME records
under the exact name `{subdomain}.{parentDomain}`; it returns true iff
the query succeeds with at least one matching record, and returns false
(instead of propagating the error) when the query itself fails. -/
theorem check_dns_record_exists_spec (cfg : Config) (out : CFOutcomes) (s : String) :
    (∀ e, out.dnsQuery ⟨"CNAME", s ++ "." ++ cfg.parent_domain⟩ = .error e →
        check_dns_record_exists cfg out s = false) ∧
    (∀ records, out.dnsQuery ⟨"CNAME", s ++ "." ++ cfg.parent_domain⟩ = .ok records →
        (check_dns_record_exists cfg out s = true ↔ 0 < records.length)) := by
  constructor
  · intro e he
    simp [check_dns_record_exists, he]
  · intro records hr
    simp [check_dns_record_exists, hr]

theorem check_dns_record_exists_spec_witness :
    check_dns_record_exists cfgDemo outQueryFails "demo" = false ∧
    (check_dns_record_exists cfgDemo outDnsLive "demo" = true ↔
      0 < (["rec-1"] : List String).length) :=
  ⟨(check_dns_record_exists_spec cfgDemo outQueryFails "demo").1
      "HTTP Request failed: boom" rfl,
   (check_dns_record_exists_spec cfgDemo outDnsLive "demo").2 ["rec-1"] rfl⟩

/-- C9: a create request whose localPort lies outside 1–65535 is
rejected by request validation (HTTP 422) before the handler runs: the
ledger is unchanged and no remote call of any kind is made. -/
theorem create_invalid_port_rejected (cfg : Config) (out : CFOutcomes)
    (db : List TunnelRecord) (genName genSecret : String) (req : CreateSubdomainRequest)
    (h : ¬(1 ≤ req.localPort ∧ req.localPort ≤ 65535)) :
    api_create_subdomain cfg out db genName genSecret req =
      (.httpError 422 "value_error: localPort out of range", db, []) := by
  unfold api_create_subdomain
  rw [if_neg (by simpa [validate_create_request] using h)]

theorem create_invalid_port_rejected_witness :
    ¬((1 : Int) ≤ 99999 ∧ (99999 : Int) ≤ 65535) ∧
    api_create_subdomain cfgDemo outAllOk [] "gen" "sec" reqBadPort =
      (.httpError 422 "value_error: localPort out of range", [], []) :=
  ⟨by omega,
   create_invalid_port_rejected cfgDemo outAllOk [] "gen" "sec" reqBadPort (by decide)⟩

/-- C10: the detail lookup filters only on the subdomain, never on
status: it returns a stored row (deleted included) whenever one exists
for the subdomain, and reports not-found exactly when no row with that
subdomain exists at all. -/
theorem get_details_ignores_status (db : List TunnelRecord) (s : String) :
    (get_subdomain_details db s = none ↔ ∀ r ∈ db, r.subdomain ≠ s) ∧
    (∀ r, get_subdomain_details db s = some r → r ∈ db ∧ r.subdomain = s) ∧
    ((∃ r ∈ db, r.subdomain = s) →
      ∃ r, get_subdomain_details db s = some r ∧ r.subdomain = s) := by
  refine ⟨?_, ?_, ?_⟩
  · simp [get_subdomain_details, List.find?_eq_none]
  · intro r hr
    have h1 := List.mem_of_find?_eq_some hr
    have h2 := List.find?_some hr
    simp only [beq_iff_eq] at h2
    exact ⟨h1, h2⟩
  · rintro ⟨r, hmem, hsub⟩
    have hs : (List.find? (fun r => r.subdomain == s) db).isSome := by
      rw [List.find?_isSome]
      exact ⟨r, hmem, by simp [hsub]⟩
    obtain ⟨r2, hr2⟩ := Option.isSome_iff_exists.mp hs
    refine ⟨r2, hr2, ?_⟩
    have := List.find?_some hr2
    simpa using this

theorem get_details_ignores_status_witness :
    ∃ r, get_subdomain_details [rowDemoDeleted] "demo" = some r ∧ r.subdomain = "demo" :=
  (get_details_ignores_status [rowDemoDeleted] "demo").2.2 ⟨rowDemoDeleted, by simp, rfl⟩

/-! ### C6, C7: payload shapes of the saga's remote calls -/

/-- C7: the DNS-record request built for a subdomain and tunnel id is a
CNAME named by the subdomain, pointing at `{tunnelId}.cfargotunnel.com`,
with the provider's automatic-TTL sentinel (1) and proxied = true; and
every DNS-record creation a saga run submits carries exactly this
payload for the resolved subdomain and the created tunnel's id. -/
theorem create_dns_record_shape (s tid : String) (cfg : Config) (out : CFOutcomes)
    (genName genSecret : String) (subdomain? : Option String) (port : Int) :
    ((create_dns_record_data s tid).rtype = "CNAME" ∧
     (create_dns_record_data s tid).name = s ∧
     (create_dns_record_data s tid).content = tid ++ ".cfargotunnel.com" ∧
     (create_dns_record_data s tid).ttl = 1 ∧
     (create_dns_record_data s tid).proxied = true) ∧
    (∀ d, RemoteCall.createDNS d ∈
        (create_full_subdomain_setup cfg out genName genSecret subdomain? port).2 →
      ∃ tun, out.createTunnel = .ok tun ∧
        d = create_dns_record_data (resolve_subdomain subdomain? genName) tun.id) := by
  refine ⟨⟨rfl, rfl, rfl, rfl, rfl⟩, ?_⟩
  intro d hd
  unfold create_full_subdomain_setup at hd
  by_cases hc : check_dns_record_exists cfg out (resolve_subdomain subdomain? genName)
  · simp [hc] at hd
  · rcases ht : out.createTunnel with e | tun
    · simp [hc, ht] at hd
    · rcases hdns : out.createDNS with e | rid
      · simp [hc, ht, hdns] at hd
        exact ⟨tun, rfl, hd⟩
      · rcases hroute : out.configureRoute with e | u
        · simp [hc, ht, hdns, hroute] at hd
          exact ⟨tun, rfl, hd⟩
        · simp [hc, ht, hdns, hroute] at hd
          exact ⟨tun, rfl, hd⟩

theorem create_dns_record_shape_witness :
    ∃ tun, outDnsFailDeleteFail.createTunnel = .ok tun ∧
      create_dns_record_data "demo" "tun-new" =
        create_dns_record_data (resolve_subdomain (some "demo") "gen") tun.id :=
  (create_dns_record_shape "demo" "tun-new" cfgDemo outDnsFailDeleteFail "gen" "sec"
      (some "demo") 8080).2 (create_dns_record_data "demo" "tun-new") (by decide)

/-- C6: the ingress configuration built for a hostname and port has
exactly two rules — the first routes the hostname to
`http://localhost:{localPort}` with origin TLS verification disabled,
and the last is the catch-all returning HTTP status 404 — and every
route-configuration call a saga run submits carries exactly this
ingress for the created tunnel's id and the resolved full hostname. -/
theorem configure_route_shape (hostname : String) (port : Int) (cfg : Config)
    (out : CFOutcomes) (genName genSecret : String) (subdomain? : Option String) :
    ((configure_tunnel_route_ingress hostname port).length = 2 ∧
     (configure_tunnel_route_ingress hostname port).head? = some
        { hostname := some hostname
          service := "http://localhost:" ++ toString port
          noTLSVerify := some true } ∧
     (configure_tunnel_route_ingress hostname port).getLast? = some
        { hostname := none, service := "http_status:404", noTLSVerify := none }) ∧
    (∀ tid ing, RemoteCall.configureRoute tid ing ∈
        (create_full_subdomain_setup cfg out genName genSecret subdomain? port).2 →
      (∃ tun, out.createTunnel = .ok tun ∧ tid = tun.id) ∧
      ing = configure_tunnel_route_ingress
        (resolve_subdomain subdomain? genName ++ "." ++ cfg.parent_domain) port) := by
  refine ⟨⟨rfl, rfl, rfl⟩, ?_⟩
  intro tid ing hd
  unfold create_full_subdomain_setup at hd
  by_cases hc : check_dns_record_exists cfg out (resolve_subdomain subdomain? genName)
  · simp [hc] at hd
  · rcases ht : out.createTunnel with e | tun
    · simp [hc, ht] at hd
    · rcases hdns : out.createDNS with e | rid
      · simp [hc, ht, hdns] at hd
      · rcases hroute : out.configureRoute with e | u
        · simp [hc, ht, hdns, hroute] at hd
          exact ⟨⟨tun, rfl, hd.1⟩, hd.2⟩
        · simp [hc, ht, hdns, hroute] at hd
          exact ⟨⟨tun, rfl, hd.1⟩, hd.2⟩

theorem configure_route_shape_witness :
    (∃ tun, outRouteFail.createTunnel = .ok tun ∧ "tun-new" = tun.id) ∧
    configure_tunnel_route_ingress "demo.agentstudio.cc" 8080 =
      configure_tunnel_route_ingress
        (resolve_subdomain (some "demo") "gen" ++ "." ++ cfgDemo.parent_domain) 8080 :=
  (configure_route_shape "demo.agentstudio.cc" 8080 cfgDemo outRouteFail "gen" "sec"
      (some "demo")).2 "tun-new"
    (configure_tunnel_route_ingress "demo.agentstudio.cc" 8080) (by decide)

/-! ### C2: compensation in the create saga -/

theorem setup_comp (cfg : Config) (out : CFOutcomes) (genName genSecret : String)
    (subdomain? : Option String) (port : Int) (tun : CreatedTunnel) (e : String)
    (hdns : check_dns_record_exists cfg out (resolve_subdomain subdomain? genName) = false)
    (htun : out.createTunnel = .ok tun)
    (hfail : out.createDNS = .error e ∨
      ((∃ rid, out.createDNS = .ok rid) ∧ out.configureRoute = .error e)) :
    (create_full_subdomain_setup cfg out genName genSecret subdomain? port).1 =
      .error e ∧
    RemoteCall.deleteTunnel tun.id ∈
      (create_full_subdomain_setup cfg out genName genSecret subdomain? port).2 := by
  unfold create_full_subdomain_setup
  rcases hfail with hdnsf | ⟨⟨rid, hok⟩, hroutef⟩
  · simp [hdns, htun, hdnsf]
  · simp [hdns, htun, hok, hroutef]

/-- C2: whenever the saga's tunnel creation succeeds and a later step
(DNS-record creation or route configuration; token issuance is pure and
cannot fail) fails with error `e`, the create endpoint attempts
`DeleteTunnel` on the created tunnel, finalizes no ledger record, and
reports the original failure `e` to the caller — the compensation
outcome (`out.deleteTunnel`) is unconstrained, so this holds even when
the compensating deletion itself fails. -/
theorem create_saga_compensation (cfg : Config) (out : CFOutcomes) (db : List TunnelRecord)
    (genName genSecret : String) (req : CreateSubdomainRequest) (tun : CreatedTunnel)
    (e : String)
    (hpre : ∀ s, req.subdomain = some s → s ≠ "" → ledger_has_active db s = false)
    (hdns : check_dns_record_exists cfg out (resolve_subdomain req.subdomain genName) = false)
    (htun : out.createTunnel = .ok tun)
    (hfail : out.createDNS = .error e ∨
      ((∃ rid, out.createDNS = .ok rid) ∧ out.configureRoute = .error e)) :
    (create_subdomain cfg out db genName genSecret req).1 =
      CreateResult.httpError 500 ("Failed to create subdomain: " ++ e) ∧
    (create_subdomain cfg out db genName genSecret req).2.1 = db ∧
    RemoteCall.deleteTunnel tun.id ∈
      (create_subdomain cfg out db genName genSecret req).2.2 := by
  have hsetup := setup_comp cfg out genName genSecret req.subdomain req.localPort tun e
    hdns htun hfail
  have hcore : (create_subdomain_core cfg out db genName genSecret req).1 =
        CreateResult.httpError 500 ("Failed to create subdomain: " ++ e) ∧
      (create_subdomain_core cfg out db genName genSecret req).2.1 = db ∧
      RemoteCall.deleteTunnel tun.id ∈
        (create_subdomain_core cfg out db genName genSecret req).2.2 := by
    obtain ⟨h1, h2⟩ := hsetup
    rcases hsu : create_full_subdomain_setup cfg out genName genSecret req.subdomain
        req.localPort with ⟨res, calls⟩
    rw [hsu] at h1 h2
    have h1' : res = Except.error e := h1
    subst h1'
    unfold create_subdomain_core
    rw [hsu]
    exact ⟨rfl, rfl, h2⟩
  rcases hsub : req.subdomain with _ | s
  · simpa [create_subdomain, hsub] using hcore
  · by_cases hne : s = ""
    · have hcond : ¬(s ≠ "" ∧ ledger_has_active db s = true) := by
        rintro ⟨hA, _⟩; exact hA hne
      simpa [create_subdomain, hsub, hcond] using hcore
    · have hact := hpre s hsub hne
      have hcond : ¬(s ≠ "" ∧ ledger_has_active db s = true) := by
        rintro ⟨_, hA⟩
        rw [hact] at hA
        exact Bool.false_ne_true hA
      simpa [create_subdomain, hsub, hcond] using hcore

theorem create_saga_compensation_witness :
    (create_subdomain cfgDemo outDnsFailDeleteFail [] "gen" "sec" reqDemo).1 =
      CreateResult.httpError 500
        ("Failed to create subdomain: " ++ "Cloudflare API Error: dns failure") ∧
    (create_subdomain cfgDemo outDnsFailDeleteFail [] "gen" "sec" reqDemo).2.1 = [] ∧
    RemoteCall.deleteTunnel "tun-new" ∈
      (create_subdomain cfgDemo outDnsFailDeleteFail [] "gen" "sec" reqDemo).2.2 :=
  create_saga_compensation cfgDemo outDnsFailDeleteFail [] "gen" "sec" reqDemo
    { id := "tun-new", name := "demo", created_at := "2024-01-01T00:00:00Z" }
    "Cloudflare API Error: dns failure"
    (fun _ _ _ => rfl) (by decide) rfl (Or.inl rfl)

/-! ### C3: conflict handling before the saga -/

/-- C3 counterexample: with an empty ledger and a live provider DNS
record for `demo`, the create endpoint returns HTTP 500 with the
already-taken message — not the 409 conflict response the claim
requires for this case. -/
theorem create_conflict_provider_counterexample :
    (create_subdomain cfgDemo outDnsLive [] "gen" "sec" reqDemo).1 =
      CreateResult.httpError 500
        "Failed to create subdomain: Subdomain demo is already taken" := by
  rfl

/-- C3 (amended): a create whose (non-empty) requested subdomain is
already active in the ledger returns ConflictError (HTTP 409) with the
ledger unchanged and no remote call at all; one whose subdomain is not
active in the ledger but already has a live DNS record at the provider
is rejected with HTTP 500 (a generic failure, not a 409 conflict)
carrying the already-taken message, with the ledger unchanged and the
read-only DNS existence query as its only remote call — in both cases
no remote mutating call is performed. -/
theorem create_conflict_amended (cfg : Config) (out : CFOutcomes) (db : List TunnelRecord)
    (genName genSecret : String) (req : CreateSubdomainRequest) (s : String)
    (hs : req.subdomain = some s) (hne : s ≠ "") :
    (ledger_has_active db s = true →
      create_subdomain cfg out db genName genSecret req =
        (CreateResult.httpError 409 ("Subdomain " ++ s ++ " is already taken"), db, [])) ∧
    (ledger_has_active db s = false → check_dns_record_exists cfg out s = true →
      create_subdomain cfg out db genName genSecret req =
        (CreateResult.httpError 500
            ("Failed to create subdomain: " ++ ("Subdomain " ++ s ++ " is already taken")),
          db, [RemoteCall.checkDNS ⟨"CNAME", s ++ "." ++ cfg.parent_domain⟩]) ∧
      ∀ c ∈ (create_subdomain cfg out db genName genSecret req).2.2,
        c.isMutating = false) := by
  constructor
  · intro hact
    simp [create_subdomain, hs, hne, hact]
  · intro hact hdns
    have hcond : ¬(s ≠ "" ∧ ledger_has_active db s = true) := by
      rintro ⟨_, hA⟩
      rw [hact] at hA
      exact Bool.false_ne_true hA
    have hmain : create_subdomain cfg out db genName genSecret req =
        (CreateResult.httpError 500
            ("Failed to create subdomain: " ++ ("Subdomain " ++ s ++ " is already taken")),
          db, [RemoteCall.checkDNS ⟨"CNAME", s ++ "." ++ cfg.parent_domain⟩]) := by
      simp [create_subdomain, hs, hcond, hact, create_subdomain_core,
        create_full_subdomain_setup, resolve_subdomain, hne, hdns]
    refine ⟨hmain, ?_⟩
    rw [hmain]
    intro c hc
    simp only [List.mem_singleton] at hc
    subst hc
    rfl

theorem create_conflict_amended_witness :
    create_subdomain cfgDemo outAllOk [rowDemoActive] "gen" "sec" reqDemo =
      (CreateResult.httpError 409 ("Subdomain " ++ "demo" ++ " is already taken"),
        [rowDemoActive], []) ∧
    create_subdomain cfgDemo outDnsLive [] "gen" "sec" reqDemo =
      (CreateResult.httpError 500
          ("Failed to create subdomain: " ++ ("Subdomain " ++ "demo" ++ " is already taken")),
        [], [RemoteCall.checkDNS ⟨"CNAME", "demo" ++ "." ++ cfgDemo.parent_domain⟩]) :=
  ⟨(create_conflict_amended cfgDemo outAllOk [rowDemoActive] "gen" "sec" reqDemo "demo"
      rfl (by decide)).1 rfl,
   ((create_conflict_amended cfgDemo outDnsLive [] "gen" "sec" reqDemo "demo"
      rfl (by decide)).2 rfl rfl).1⟩

/-! ### C4: the delete saga's reporting -/

theorem mark_deleted_first_spec (db : List TunnelRecord) (s : String) (t : TunnelRecord)
    (h : find_active db s = some t) :
    { t with status := "deleted" } ∈ mark_deleted_first db s := by
  induction db with
  | nil => simp [find_active] at h
  | cons r rs ih =>
    by_cases hr : (r.subdomain == s && r.status == "active") = true
    · have hrt : r = t := by
        unfold find_active at h
        simp only [List.find?, hr, Option.some.injEq] at h
        exact h
      subst hrt
      simp [mark_deleted_first, hr]
    · have hrf : (r.subdomain == s && r.status == "active") = false := by
        simpa using hr
      have h' : find_active rs s = some t := by
        unfold find_active at h ⊢
        simp only [List.find?, hrf] at h
        exact h
      simp only [mark_deleted_first]
      rw [if_neg hr]
      exact List.mem_cons_of_mem _ (ih h')

/-- C4 (amended): for every delete of an active subdomain the matched
ledger row is unconditionally marked deleted (whatever the remote
outcomes), and `cleanup_subdomain` computes a success flag that is
false exactly when the DNS-record deletion (a record id being present)
or the tunnel deletion failed — but the endpoint discards that flag and
its response carries success = true whenever an active row was found. -/
theorem delete_subdomain_amended (out : CFOutcomes) (db : List TunnelRecord) (s : String)
    (t : TunnelRecord) (h : find_active db s = some t) :
    (delete_subdomain out db s).1 =
      DeleteResult.ok true ("Subdomain " ++ s ++ " deleted successfully") ∧
    (∃ r ∈ (delete_subdomain out db s).2.1,
      r.subdomain = t.subdomain ∧ r.tunnel_id = t.tunnel_id ∧ r.status = "deleted") ∧
    ((cleanup_subdomain out t.tunnel_id t.dns_record_id).1 = false ↔
      ((∃ rid, t.dns_record_id = some rid) ∧ ∃ e, out.deleteDNS = .error e) ∨
        ∃ e, out.deleteTunnel = .error e) := by
  refine ⟨?_, ?_, ?_⟩
  · simp [delete_subdomain, h]
  · refine ⟨{ t with status := "deleted" }, ?_, rfl, rfl, rfl⟩
    simpa [delete_subdomain, h] using mark_deleted_first_spec db s t h
  · rcases hdid : t.dns_record_id with _ | rid <;>
      rcases hdd : out.deleteDNS with ed | u1 <;>
      rcases hdt : out.deleteTunnel with et | u2 <;>
        simp [cleanup_subdomain, hdid, hdd, hdt]

/-- C4 counterexample: deleting the active `demo` row while both remote
deletions fail still yields a response with success = true, although
`cleanup_subdomain` itself computed false for the very same deletions. -/
theorem delete_success_flag_counterexample :
    (cleanup_subdomain outDeleteFail "tun-0" (some "dns-0")).1 = false ∧
    (delete_subdomain outDeleteFail [rowDemoActive] "demo").1 =
      DeleteResult.ok true "Subdomain demo deleted successfully" :=
  ⟨rfl, rfl⟩

theorem delete_subdomain_amended_witness :
    (delete_subdomain outDeleteFail [rowDemoActive] "demo").1 =
      DeleteResult.ok true ("Subdomain " ++ "demo" ++ " deleted successfully") ∧
    ((cleanup_subdomain outDeleteFail rowDemoActive.tunnel_id
        rowDemoActive.dns_record_id).1 = false ↔
      ((∃ rid, rowDemoActive.dns_record_id = some rid) ∧
        ∃ e, outDeleteFail.deleteDNS = .error e) ∨
        ∃ e, outDeleteFail.deleteTunnel = .error e) :=
  ⟨(delete_subdomain_amended outDeleteFail [rowDemoActive] "demo" rowDemoActive rfl).1,
   (delete_subdomain_amended outDeleteFail [rowDemoActive] "demo" rowDemoActive rfl).2.2⟩

/-! ### C1: uniqueness and (non-)reusability of soft-deleted names -/

/-- C1: evaluation at the failing input. The ledger holds only the
soft-deleted row for `demo` and every remote call succeeds; the request
passes the active-only duplicate check and the saga succeeds remotely,
but the commit violates the schema's global `unique=True` constraint on
`subdomain`, so the endpoint returns HTTP 500 and the ledger is
unchanged — the soft-deleted name is not reusable, although the
endpoint's own status-filtered duplicate check implies it should be. -/
theorem deleted_name_not_reusable :
    ledger_has_active [rowDemoDeleted] "demo" = false ∧
    (create_subdomain cfgDemo outAllOk [rowDemoDeleted] "gen" "sec" reqDemo).1 =
      CreateResult.httpError 500
        "Failed to create subdomain: UNIQUE constraint failed: tunnels.subdomain" ∧
    (create_subdomain cfgDemo outAllOk [rowDemoDeleted] "gen" "sec" reqDemo).2.1 =
      [rowDemoDeleted] :=
  ⟨rfl, rfl, rfl⟩

end CloudflareProxy
